import Mathlib

/-!
Shallow embedding of the crypto RSI alert bot (`src/index.js`, with the variant
functions of `src/unnamed/part_001` where a claim cites them).  Pure fragments
of the JavaScript become Lean functions; the mutable per-symbol map and the
process-wide statistics become explicit values threaded through an evaluation
step; exceptions become `Except`.  RSI values and prices are modelled as `ℚ`
(JavaScript numbers, exact at the branch points the claims are about);
timestamps (`Date.now()`) as `ℕ` milliseconds, with elapsed-time subtraction
done in `ℤ` as in JavaScript.
-/

namespace CriptAlerts

/-- The three RSI classification labels of the spec (§4.3). -/
inductive RSIState where
  | Overbought
  | Oversold
  | Neutral
deriving DecidableEq

/-- Per-symbol stored state, `tokenStates.get(symbol)` (index.js lines 243-257):
`{sobrecompra, sobrevendido, lastAlert, lastCheck, rsi}`.  `rsi` is `Option`
because the default state has `rsi: null`. -/
structure SymbolState where
  sobrecompra : Bool
  sobrevendido : Bool
  lastAlert : ℕ
  lastCheck : ℕ
  rsi : Option ℚ
deriving DecidableEq

/-- The default state used on first observation of a symbol
(index.js lines 243-249): both flags false, `lastAlert: 0`, `rsi: null`. -/
def defaultState : SymbolState :=
  { sobrecompra := false, sobrevendido := false, lastAlert := 0, lastCheck := 0, rsi := none }

/-- The `currentState` object built at index.js lines 251-257:
flags from the fresh RSI, `lastAlert` copied from the stored state. -/
def mkCurrentState (rsi : ℚ) (lastState : SymbolState) (now : ℕ) : SymbolState :=
  { sobrecompra := decide (rsi > 70)
  , sobrevendido := decide (rsi < 30)
  , lastAlert := lastState.lastAlert
  , lastCheck := now
  , rsi := some rsi }

/-- The pure classification function of spec §4.3, read off the threshold
comparisons at index.js lines 252-253 and the display logic at lines 259-260
(`sobrecompra` wins, then `sobrevendido`, else neutral). -/
def classify (rsi : ℚ) : RSIState :=
  if rsi > 70 then .Overbought else if rsi < 30 then .Oversold else .Neutral

/-- Classification label carried by a stored state, as displayed at
index.js lines 259-260. -/
def stateOf (s : SymbolState) : RSIState :=
  if s.sobrecompra then .Overbought else if s.sobrevendido then .Oversold else .Neutral

/-- `MIN_TIME_BETWEEN_ALERTS` (index.js line 263): 15 minutes in milliseconds. -/
def MIN_TIME_BETWEEN_ALERTS : ℕ := 15 * 60 * 1000

/-- `debemosEnviarAlerta` (index.js lines 265-269).  The elapsed time
`Date.now() - lastState.lastAlert` (line 262) is integer subtraction. -/
def debemosEnviarAlerta (currentState lastState : SymbolState) (now : ℕ) : Bool :=
  (currentState.sobrecompra && !lastState.sobrecompra) ||
  (currentState.sobrevendido && !lastState.sobrevendido) ||
  ((currentState.sobrecompra || currentState.sobrevendido) &&
    decide ((now : ℤ) - (lastState.lastAlert : ℤ) > (MIN_TIME_BETWEEN_ALERTS : ℤ)))

theorem classify_mkCurrentState (rsi : ℚ) (lastState : SymbolState) (now : ℕ) :
    stateOf (mkCurrentState rsi lastState now) = classify rsi := by
  by_cases h70 : rsi > 70 <;> by_cases h30 : rsi < 30 <;>
    simp [stateOf, mkCurrentState, classify, h70, h30]

/-- Result object of `sendTelegramAlert` (index.js lines 146, 184, 209, 217):
`{success, error?}`.  `attemptsMade` counts how many iterations of the retry
loop were entered, instrumenting the observable "number of delivery attempts"
(0 means the function returned before any network call). -/
structure SendResult where
  success : Bool
  error : Option String
  attemptsMade : ℕ
deriving DecidableEq

/-- Process-wide counters of `botStats` touched by `analyzeAndAlert`
(index.js lines 25-33). -/
structure Stats where
  totalAlertsTriggered : ℕ
  totalAlertsSent : ℕ
  failedAlerts : ℕ
deriving DecidableEq

/-- JavaScript runtime exceptions, as far as the embedded fragments raise
them. -/
inductive JsError where
  | referenceError (name : String)
deriving DecidableEq

/-- Observable outcome of one `analyzeAndAlert(symbol)` evaluation:
`stored` is the value written into `tokenStates` for the symbol (`none` when
the map entry is left untouched), `stats` the updated counters, `alerted`
whether `sendTelegramAlert` was invoked, `returned` the function's return
value. -/
structure EvalResult where
  stored : Option SymbolState
  stats : Stats
  alerted : Bool
  returned : Bool
deriving DecidableEq

/-- The body of the inner `try` of `analyzeAndAlert` (index.js lines 294-315),
picking up right after `sendTelegramAlert` has produced `telegramResult`.
Line 298 reads the identifier `telegramSent`, which is declared nowhere in
`index.js` (its only occurrence is line 298), so in JavaScript this lookup
throws `ReferenceError: telegramSent is not defined` before the
`telegramResult.success` check at line 304 can run.  The code below keeps the
now-unreachable lines 304-314 transcribed verbatim after the throwing lookup:
on success they would store `currentState` with `lastAlert := now` and bump
`totalAlertsSent`, on failure store `currentState` with the previous
`lastAlert` and bump `failedAlerts`. -/
def alertTryBody (telegramResult : SendResult) (currentState lastState : SymbolState)
    (stats : Stats) (now : ℕ) : Except JsError (Option SymbolState × Stats × Bool) := do
  let telegramSent ← (Except.error (JsError.referenceError "telegramSent") :
    Except JsError Bool)
  if telegramSent then pure () else pure ()
  if telegramResult.success then
    return (some { currentState with lastAlert := now },
      { stats with totalAlertsSent := stats.totalAlertsSent + 1 }, true)
  else
    return (some { currentState with lastAlert := lastState.lastAlert },
      { stats with failedAlerts := stats.failedAlerts + 1 }, false)

/-- The alert-dispatch section of `analyzeAndAlert` (index.js lines 294-319):
the inner `try` around the dispatch, and the `catch` at line 316 that receives
the `ReferenceError` from line 298 and increments `failedAlerts`.  After the
`try`/`catch`, control falls to the end of the function and returns `false`
(line 327). -/
def alertBranch (telegramResult : SendResult) (currentState lastState : SymbolState)
    (stats : Stats) (now : ℕ) : EvalResult :=
  match alertTryBody telegramResult currentState lastState stats now with
  | .ok (stored, stats2, ret) => ⟨stored, stats2, true, ret⟩
  | .error _ =>
      ⟨none, { stats with failedAlerts := stats.failedAlerts + 1 }, true, false⟩

/-- One evaluation of a symbol: `analyzeAndAlert` (index.js lines 232-328)
from the point where the fresh RSI value is known (line 241).  `prev` is
`tokenStates.get(symbol)` (`none` on first observation, defaulted at lines
243-249), `telegramResult` the outcome `sendTelegramAlert` produces when
invoked, `now` is `Date.now()`.  Lines 271-292 increment
`totalAlertsTriggered`, pick condition/recommendation (returning `false` when
neither flag is set — dead code, since `debemosEnviarAlerta` implies a flag),
and build the message; line 320-322 is the no-alert branch that still stores
`currentState`. -/
def analyzeAndAlert (rsi : ℚ) (prev : Option SymbolState) (telegramResult : SendResult)
    (stats : Stats) (now : ℕ) : EvalResult :=
  let lastState := prev.getD defaultState
  let currentState := mkCurrentState rsi lastState now
  if debemosEnviarAlerta currentState lastState now then
    let stats1 := { stats with totalAlertsTriggered := stats.totalAlertsTriggered + 1 }
    if currentState.sobrecompra || currentState.sobrevendido then
      alertBranch telegramResult currentState lastState stats1 now
    else
      ⟨none, stats1, false, false⟩
  else
    ⟨some currentState, stats, false, false⟩

theorem alertBranch_stored (telegramResult : SendResult)
    (currentState lastState : SymbolState) (stats : Stats) (now : ℕ) :
    (alertBranch telegramResult currentState lastState stats now).stored = none := rfl

theorem alertBranch_alerted (telegramResult : SendResult)
    (currentState lastState : SymbolState) (stats : Stats) (now : ℕ) :
    (alertBranch telegramResult currentState lastState stats now).alerted = true := rfl

/-- The dispatcher is invoked exactly when `debemosEnviarAlerta` holds: the
guard at index.js line 283 (`return false` when neither flag is set) is dead,
because every disjunct of `debemosEnviarAlerta` requires one of the flags. -/
theorem alerted_iff_debemos (rsi : ℚ) (prev : Option SymbolState)
    (telegramResult : SendResult) (stats : Stats) (now : ℕ) :
    (analyzeAndAlert rsi prev telegramResult stats now).alerted =
      debemosEnviarAlerta (mkCurrentState rsi (prev.getD defaultState) now)
        (prev.getD defaultState) now := by
  unfold analyzeAndAlert
  set lastState := prev.getD defaultState with hL
  by_cases hd : debemosEnviarAlerta (mkCurrentState rsi lastState now) lastState now
  · have hflag : (mkCurrentState rsi lastState now).sobrecompra ||
        (mkCurrentState rsi lastState now).sobrevendido := by
      unfold debemosEnviarAlerta at hd
      rcases Bool.or_eq_true _ _ |>.mp hd with h | h
      · rcases Bool.or_eq_true _ _ |>.mp h with h' | h'
        · simp [Bool.and_eq_true] at h'
          simp [h'.1]
        · simp [Bool.and_eq_true] at h'
          simp [h'.1]
      · simp [Bool.and_eq_true] at h
        rcases h.1 with h' | h' <;> simp [h']
    simp [hd, hflag, alertBranch_alerted]
  · simp [hd]

/-- C3: For every RSI value r, the classification is Overbought iff r > 70,
Oversold iff r < 30, and Neutral otherwise; in particular r = 70 and r = 30
classify as Neutral. -/
theorem C3_classify_thresholds (r : ℚ) :
    (classify r = .Overbought ↔ r > 70) ∧
    (classify r = .Oversold ↔ r < 30) ∧
    (classify r = .Neutral ↔ ¬(r > 70) ∧ ¬(r < 30)) ∧
    classify (70 : ℚ) = .Neutral ∧ classify (30 : ℚ) = .Neutral := by
  refine ⟨?_, ?_, ?_, by norm_num [classify], by norm_num [classify]⟩ <;>
    by_cases h70 : r > 70 <;> by_cases h30 : r < 30 <;>
      simp [classify, h70, h30] <;> linarith

theorem classify_Overbought_iff (r : ℚ) : classify r = .Overbought ↔ r > 70 := by
  unfold classify
  by_cases h70 : r > 70
  · simp [h70]
  · by_cases h30 : r < 30 <;> simp [h70, h30]

theorem classify_Oversold_iff (r : ℚ) : classify r = .Oversold ↔ r < 30 := by
  unfold classify
  by_cases h70 : r > 70
  · simp [h70]
    linarith
  · by_cases h30 : r < 30 <;> simp [h70, h30]

theorem classify_ne_Neutral_iff (r : ℚ) :
    classify r ≠ .Neutral ↔ (r > 70 ∨ r < 30) := by
  unfold classify
  by_cases h70 : r > 70 <;> by_cases h30 : r < 30 <;> simp [h70, h30]

theorem stateOf_ne_Overbought_iff (s : SymbolState) :
    stateOf s ≠ .Overbought ↔ s.sobrecompra = false := by
  cases hsc : s.sobrecompra <;> cases hsv : s.sobrevendido <;> simp [stateOf, hsc, hsv]

theorem stateOf_ne_Oversold_iff (s : SymbolState)
    (hinv : ¬(s.sobrecompra = true ∧ s.sobrevendido = true)) :
    stateOf s ≠ .Oversold ↔ s.sobrevendido = false := by
  cases hsc : s.sobrecompra <;> cases hsv : s.sobrevendido <;>
    simp_all [stateOf, hsc, hsv]

/-- C1: for every symbol evaluation, the alert dispatch is invoked if and only
if the current classification is Overbought while the stored state was not
Overbought, or Oversold while the stored state was not Oversold, or the
current classification is not Neutral and more than the 15-minute cooldown has
elapsed since the stored `lastAlert` timestamp.  The hypothesis is the stored
invariant of C6 (at most one extreme flag), which every stored state
satisfies. -/
theorem C1_alert_condition (rsi : ℚ) (lastState : SymbolState)
    (telegramResult : SendResult) (stats : Stats) (now : ℕ)
    (hinv : ¬(lastState.sobrecompra = true ∧ lastState.sobrevendido = true)) :
    (analyzeAndAlert rsi (some lastState) telegramResult stats now).alerted = true ↔
      (classify rsi = .Overbought ∧ stateOf lastState ≠ .Overbought) ∨
      (classify rsi = .Oversold ∧ stateOf lastState ≠ .Oversold) ∨
      (classify rsi ≠ .Neutral ∧
        (now : ℤ) - (lastState.lastAlert : ℤ) > (MIN_TIME_BETWEEN_ALERTS : ℤ)) := by
  rw [alerted_iff_debemos]
  simp only [Option.getD_some, classify_Overbought_iff, classify_Oversold_iff,
    classify_ne_Neutral_iff, stateOf_ne_Overbought_iff,
    stateOf_ne_Oversold_iff lastState hinv, debemosEnviarAlerta, mkCurrentState,
    Bool.or_eq_true, Bool.and_eq_true, decide_eq_true_eq, Bool.not_eq_true']
  tauto

/-- Witness for C1 at an Overbought transition on a Neutral stored state. -/
theorem C1_alert_condition_witness :
    (analyzeAndAlert 75 (some defaultState) ⟨true, none, 1⟩ ⟨0, 0, 0⟩ 1000).alerted
      = true :=
  (C1_alert_condition 75 defaultState ⟨true, none, 1⟩ ⟨0, 0, 0⟩ 1000
    (by decide)).mpr (Or.inl ⟨by decide, by decide⟩)

/-- C2 (code bug): the claim describes index.js lines 304-314, but those lines
are unreachable: line 298 evaluates the undeclared identifier `telegramSent`,
which throws a `ReferenceError`, so on a successful dispatch
(`telegramResult.success = true`, here at the first observation of a symbol
with RSI 75) the stored state is not updated at all, `totalAlertsSent` stays
0, `lastAlert` is never reset, and `failedAlerts` is incremented even though
delivery succeeded. -/
theorem C2_success_path_unreachable :
    (analyzeAndAlert 75 none ⟨true, none, 1⟩ ⟨0, 0, 0⟩ 1000000).stored = none ∧
    (analyzeAndAlert 75 none ⟨true, none, 1⟩ ⟨0, 0, 0⟩ 1000000).stats =
      ⟨1, 0, 1⟩ ∧
    (analyzeAndAlert 75 none ⟨true, none, 1⟩ ⟨0, 0, 0⟩ 1000000).alerted = true ∧
    (analyzeAndAlert 75 none ⟨true, none, 1⟩ ⟨0, 0, 0⟩ 1000000).returned = false := by
  decide

/-- C4: re-evaluating a symbol whose classification is unchanged from the
stored state, within the cooldown window since its `lastAlert`, fires no alert,
stores `currentState` whose `lastAlert` is copied unchanged from the stored
state, and leaves the statistics untouched. -/
theorem C4_idempotent_within_cooldown (rsi : ℚ) (lastState : SymbolState)
    (telegramResult : SendResult) (stats : Stats) (now : ℕ)
    (hclass : classify rsi = stateOf lastState)
    (hcool : (now : ℤ) - (lastState.lastAlert : ℤ) ≤ (MIN_TIME_BETWEEN_ALERTS : ℤ)) :
    (analyzeAndAlert rsi (some lastState) telegramResult stats now).alerted = false ∧
    (analyzeAndAlert rsi (some lastState) telegramResult stats now).stored =
      some (mkCurrentState rsi lastState now) ∧
    (mkCurrentState rsi lastState now).lastAlert = lastState.lastAlert ∧
    (analyzeAndAlert rsi (some lastState) telegramResult stats now).stats = stats := by
  have ht : ¬((now : ℤ) - (lastState.lastAlert : ℤ) >
      (MIN_TIME_BETWEEN_ALERTS : ℤ)) := not_lt.mpr hcool
  have hd : debemosEnviarAlerta (mkCurrentState rsi lastState now) lastState now
      = false := by
    cases hsc : lastState.sobrecompra <;> cases hsv : lastState.sobrevendido <;>
      by_cases h70 : rsi > 70 <;> by_cases h30 : rsi < 30 <;>
        simp_all [debemosEnviarAlerta, mkCurrentState, classify, stateOf] <;>
          linarith
  refine ⟨?_, ?_, rfl, ?_⟩ <;> simp [analyzeAndAlert, hd]

/-- Witness for C4: stored state Overbought, RSI still 75, re-checked at the
very timestamp of the last alert. -/
theorem C4_idempotent_within_cooldown_witness :
    (analyzeAndAlert 75 (some ⟨true, false, 1000, 900, some 80⟩)
        ⟨true, none, 1⟩ ⟨2, 1, 0⟩ 1000).alerted = false ∧
    (analyzeAndAlert 75 (some ⟨true, false, 1000, 900, some 80⟩)
        ⟨true, none, 1⟩ ⟨2, 1, 0⟩ 1000).stored =
      some (mkCurrentState 75 ⟨true, false, 1000, 900, some 80⟩ 1000) ∧
    (mkCurrentState 75 ⟨true, false, 1000, 900, some 80⟩ 1000).lastAlert = 1000 ∧
    (analyzeAndAlert 75 (some ⟨true, false, 1000, 900, some 80⟩)
        ⟨true, none, 1⟩ ⟨2, 1, 0⟩ 1000).stats = ⟨2, 1, 0⟩ :=
  C4_idempotent_within_cooldown 75 ⟨true, false, 1000, 900, some 80⟩
    ⟨true, none, 1⟩ ⟨2, 1, 0⟩ 1000 (by decide) (by decide)

/-- C5: on the first evaluation of a symbol with no stored state the prior
state defaults to Neutral with `lastAlert = 0`, so an RSI already above 70 or
below 30 on first sight does invoke the alert dispatch. -/
theorem C5_first_observation_alerts (rsi : ℚ) (telegramResult : SendResult)
    (stats : Stats) (now : ℕ) (hex : rsi > 70 ∨ rsi < 30) :
    stateOf defaultState = .Neutral ∧ defaultState.lastAlert = 0 ∧
    (analyzeAndAlert rsi none telegramResult stats now).alerted = true := by
  refine ⟨rfl, rfl, ?_⟩
  rw [alerted_iff_debemos]
  rcases hex with h | h <;>
    simp [debemosEnviarAlerta, mkCurrentState, defaultState, h]

/-- Witness for C5 with RSI 25 on first sight. -/
theorem C5_first_observation_alerts_witness :
    stateOf defaultState = .Neutral ∧ defaultState.lastAlert = 0 ∧
    (analyzeAndAlert 25 none ⟨true, none, 1⟩ ⟨0, 0, 0⟩ 5000).alerted = true :=
  C5_first_observation_alerts 25 ⟨true, none, 1⟩ ⟨0, 0, 0⟩ 5000
    (Or.inr (by norm_num))

/-- C6: every state an evaluation stores into `tokenStates` has at most one of
the flags `sobrecompra`/`sobrevendido` set, both being derived from one RSI
value against the disjoint thresholds > 70 and < 30. -/
theorem C6_at_most_one_extreme (rsi : ℚ) (prev : Option SymbolState)
    (telegramResult : SendResult) (stats : Stats) (now : ℕ) (st : SymbolState)
    (h : (analyzeAndAlert rsi prev telegramResult stats now).stored = some st) :
    ¬(st.sobrecompra = true ∧ st.sobrevendido = true) := by
  unfold analyzeAndAlert at h
  by_cases hd : debemosEnviarAlerta (mkCurrentState rsi (prev.getD defaultState) now)
      (prev.getD defaultState) now
  · by_cases hf : (mkCurrentState rsi (prev.getD defaultState) now).sobrecompra ||
        (mkCurrentState rsi (prev.getD defaultState) now).sobrevendido <;>
      simp [hd, hf, alertBranch_stored] at h
  · simp [hd] at h
    rintro ⟨ha, hb⟩
    rw [← h] at ha hb
    simp [mkCurrentState] at ha hb
    linarith

/-- Witness for C6: a Neutral evaluation stores a state with both flags
clear. -/
theorem C6_at_most_one_extreme_witness :
    (analyzeAndAlert 50 none ⟨true, none, 1⟩ ⟨0, 0, 0⟩ 5000).stored =
      some ⟨false, false, 0, 5000, some 50⟩ ∧
    ¬((false : Bool) = true ∧ (false : Bool) = true) :=
  ⟨by decide,
    C6_at_most_one_extreme 50 none ⟨true, none, 1⟩ ⟨0, 0, 0⟩ 5000
      ⟨false, false, 0, 5000, some 50⟩ (by decide)⟩

/-- Telegram configuration read from the environment (index.js lines 13-14).
`none` models an unset variable; JavaScript truthiness makes both `undefined`
and the empty string falsy. -/
structure TelegramConfig where
  botToken : Option String
  chatId : Option String
deriving DecidableEq

def truthy : Option String → Bool
  | none => false
  | some s => !(s == "")

/-- Outcome of one iteration of the retry loop of `sendTelegramAlert`
(index.js lines 151-213), classified by the control-flow exit it takes. -/
inductive AttemptOutcome where
  | delivered
  | botCheckFail
  | noConfirm
  | rateLimited
  | chatNotFound
  | otherError
deriving DecidableEq

/-- Iteration outcomes after which the loop moves on to the next retry:
the failed `getMe` probe (line 168 `continue`), a response without `data.ok`
(line 186, falls through to the next iteration), a 429 (line 203, waits and
retries), and any other exception (line 210, waits 5s and retries).  Only
`delivered` (line 184) and the `chat not found` 400 (line 209) return from
inside the loop. -/
def isRetryFailure : AttemptOutcome → Bool
  | .botCheckFail => true
  | .noConfirm => true
  | .rateLimited => true
  | .otherError => true
  | .delivered => false
  | .chatNotFound => false

/-- `MAX_RETRIES` (index.js line 149). -/
def MAX_RETRIES : ℕ := 3

/-- The retry loop of `sendTelegramAlert` (index.js lines 151-217).  `retry`
is the loop counter, the second argument the remaining iterations; after the
loop the function returns the failure object of line 217.  `attempts` yields
the outcome iteration `retry` observes.  The `attemptsMade` field of the
result counts iterations entered. -/
def sendLoop (attempts : ℕ → AttemptOutcome) : ℕ → ℕ → SendResult
  | retry, 0 => ⟨false, some "Falló después de 3 intentos", retry⟩
  | retry, remaining + 1 =>
    match attempts retry with
    | .delivered => ⟨true, none, retry + 1⟩
    | .chatNotFound => ⟨false, some "Chat ID incorrecto", retry + 1⟩
    | _ => sendLoop attempts (retry + 1) remaining

/-- `sendTelegramAlert` (index.js lines 143-218).  The configuration guard at
lines 144-147 returns `{success: false, error: 'Configuración incompleta'}`
before any network call.  Every network interaction of the body sits inside
`try`/`catch`, so the function always returns a result object and never
throws to its caller; the embedding is a total function into `SendResult`. -/
def sendTelegramAlert (cfg : TelegramConfig) (attempts : ℕ → AttemptOutcome) :
    SendResult :=
  if !truthy cfg.botToken || !truthy cfg.chatId then
    ⟨false, some "Configuración incompleta", 0⟩
  else
    sendLoop attempts 0 MAX_RETRIES

theorem sendLoop_retry_step (attempts : ℕ → AttemptOutcome) (retry n : ℕ)
    (h : isRetryFailure (attempts retry) = true) :
    sendLoop attempts retry (n + 1) = sendLoop attempts (retry + 1) n := by
  cases ho : attempts retry <;> simp [ho, isRetryFailure] at h ⊢ <;>
    simp [sendLoop, ho]

/-- C8: the dispatcher makes up to 3 attempts; with the first two iterations
failing in a retryable way, a success on the third yields an overall success
result, and a third failure exhausts the retries and yields a failure result
(the function is total — it returns this result instead of throwing). -/
theorem C8_retry_policy (cfg : TelegramConfig) (attempts : ℕ → AttemptOutcome)
    (htok : truthy cfg.botToken = true) (hchat : truthy cfg.chatId = true)
    (h0 : isRetryFailure (attempts 0) = true)
    (h1 : isRetryFailure (attempts 1) = true) :
    (attempts 2 = .delivered →
      sendTelegramAlert cfg attempts = ⟨true, none, 3⟩) ∧
    (isRetryFailure (attempts 2) = true →
      sendTelegramAlert cfg attempts =
        ⟨false, some "Falló después de 3 intentos", 3⟩) := by
  have hstart : sendTelegramAlert cfg attempts = sendLoop attempts 0 3 := by
    simp [sendTelegramAlert, htok, hchat, MAX_RETRIES]
  have e1 := sendLoop_retry_step attempts 0 2 h0
  have e2 := sendLoop_retry_step attempts 1 1 h1
  constructor
  · intro h2
    rw [hstart, e1, e2]
    simp [sendLoop, h2]
  · intro h2
    rw [hstart, e1, e2]
    cases ho : attempts 2 <;> simp [ho, isRetryFailure] at h2 ⊢ <;>
      simp [sendLoop, ho, MAX_RETRIES]

def cfgConfigured : TelegramConfig := ⟨some "token", some "chat"⟩

def attemptsThirdOk : ℕ → AttemptOutcome :=
  fun i => if i = 2 then .delivered else .otherError

def attemptsAllFail : ℕ → AttemptOutcome := fun _ => .otherError

/-- Witness for C8: two transient failures then a delivery give success; three
failures give the exhausted-retries failure result. -/
theorem C8_retry_policy_witness :
    sendTelegramAlert cfgConfigured attemptsThirdOk = ⟨true, none, 3⟩ ∧
    sendTelegramAlert cfgConfigured attemptsAllFail =
      ⟨false, some "Falló después de 3 intentos", 3⟩ :=
  ⟨(C8_retry_policy cfgConfigured attemptsThirdOk (by decide) (by decide)
      (by decide) (by decide)).1 (by decide),
   (C8_retry_policy cfgConfigured attemptsAllFail (by decide) (by decide)
      (by decide) (by decide)).2 (by decide)⟩

/-- C10: with the bot token or the chat id not configured, `sendTelegramAlert`
returns `{success: false}` with zero loop iterations entered — no network
attempt — and, being a total function, without throwing. -/
theorem C10_missing_config (cfg : TelegramConfig) (attempts : ℕ → AttemptOutcome)
    (h : truthy cfg.botToken = false ∨ truthy cfg.chatId = false) :
    sendTelegramAlert cfg attempts =
      ⟨false, some "Configuración incompleta", 0⟩ := by
  rcases h with h | h <;> simp [sendTelegramAlert, h]

/-- Witness for C10: unset token, configured chat id. -/
theorem C10_missing_config_witness :
    sendTelegramAlert ⟨none, some "chat"⟩ attemptsAllFail =
      ⟨false, some "Configuración incompleta", 0⟩ :=
  C10_missing_config ⟨none, some "chat"⟩ attemptsAllFail (Or.inl rfl)

/-- One OHLCV candle.  In the source a candle is the array
`[timestamp, open, high, low, close, volume]`; `calculateIndicators` reads
indices 4 (`close`) and 5 (`volume`) (index.js lines 113-114). -/
structure Candle where
  ts : ℕ
  openPrice : ℚ
  high : ℚ
  low : ℚ
  close : ℚ
  volume : ℚ
deriving DecidableEq

/-- The snapshot object returned by `calculateIndicators`
(index.js lines 129-136). -/
structure IndicatorSnapshot where
  lastClose : ℚ
  changePercent : ℚ
  ema9 : ℚ
  ema21 : ℚ
  rsi : ℚ
  volumeAvg : ℚ
deriving DecidableEq

/-- `ti.SMA.calculate({period, values})` of the `technicalindicators`
library (an external collaborator; spec §4.1 documents the algorithm):
sliding-window simple moving averages, empty output when fewer than `period`
values are available. -/
def smaList (period : ℕ) (vs : List ℚ) : List ℚ :=
  if period = 0 ∨ vs.length < period then []
  else
    (List.range (vs.length - period + 1)).map
      (fun i => ((vs.drop i).take period).sum / (period : ℚ))

/-- `ti.EMA.calculate({period, values})` of the `technicalindicators`
library: seeded with the simple average of the first `period` values, then
smoothed with factor 2/(period+1); empty output when fewer than `period`
values are available. -/
def emaList (period : ℕ) (vs : List ℚ) : List ℚ :=
  if period = 0 ∨ vs.length < period then []
  else
    let k : ℚ := 2 / ((period : ℚ) + 1)
    let seed := (vs.take period).sum / (period : ℚ)
    ((vs.drop period).foldl
      (fun st v => ((v - st.1) * k + st.1, st.2 ++ [(v - st.1) * k + st.1]))
      (seed, [seed])).2

def deltas (vs : List ℚ) : List ℚ := List.zipWith (fun a b => b - a) vs vs.tail

def gainOf (d : ℚ) : ℚ := if d > 0 then d else 0

def lossOf (d : ℚ) : ℚ := if d < 0 then -d else 0

def wilderRsi (g l : ℚ) : ℚ :=
  if l = 0 then 100 else 100 - 100 / (1 + g / l)

/-- `ti.RSI.calculate({period, values})` of the `technicalindicators`
library: Wilder-smoothed average gain over average loss (spec §4.1); empty
output when fewer than `period + 1` values are available. -/
def rsiList (period : ℕ) (vs : List ℚ) : List ℚ :=
  if period = 0 ∨ vs.length < period + 1 then []
  else
    let ds := deltas vs
    let g0 := ((ds.take period).map gainOf).sum / (period : ℚ)
    let l0 := ((ds.take period).map lossOf).sum / (period : ℚ)
    ((ds.drop period).foldl
      (fun st d =>
        let g := (st.1 * ((period : ℚ) - 1) + gainOf d) / (period : ℚ)
        let l := (st.2.1 * ((period : ℚ) - 1) + lossOf d) / (period : ℚ)
        (g, l, st.2.2 ++ [wilderRsi g l]))
      (g0, l0, [wilderRsi g0 l0])).2.2

/-- `calculateIndicators` (index.js lines 110-141).  The guards: `null` or
fewer than 21 candles at line 111 (the `null` case is the fetch layer's,
here the input is always a list), fewer than 21 closes / 20 volumes at line
116, and empty indicator outputs at line 124 — each returns `null`,
modelled as `none`.  Otherwise the snapshot of lines 129-136 is built from
the last element of each series. -/
def calculateIndicators (ohlcv : List Candle) : Option IndicatorSnapshot :=
  if ohlcv.length < 21 then none
  else
    let close := ohlcv.map Candle.close
    let volume := ohlcv.map Candle.volume
    if close.length < 21 ∨ volume.length < 20 then none
    else
      let ema9 := emaList 9 close
      let ema21 := emaList 21 close
      let rsi := rsiList 14 close
      let volumeAvg := smaList 20 volume
      if ema9.length = 0 ∨ ema21.length = 0 ∨ rsi.length = 0 ∨
          volumeAvg.length = 0 then none
      else
        some
          { lastClose := close.getD (close.length - 1) 0
          , changePercent :=
              ((close.getD (close.length - 1) 0 - close.getD (close.length - 2) 0) /
                close.getD (close.length - 2) 0) * 100
          , ema9 := ema9.getD (ema9.length - 1) 0
          , ema21 := ema21.getD (ema21.length - 1) 0
          , rsi := rsi.getD (rsi.length - 1) 0
          , volumeAvg := volumeAvg.getD (volumeAvg.length - 1) 0 }

/-- C7: a candle sequence of length 20 (fewer than the 21 required) makes the
indicator calculator return no snapshot at all — in particular it can never
hand the caller a snapshot with undefined fields. -/
theorem C7_insufficient_data (ohlcv : List Candle) (h : ohlcv.length = 20) :
    calculateIndicators ohlcv = none := by
  simp [calculateIndicators, h]

def candle0 : Candle := ⟨0, 0, 0, 0, 0, 0⟩

/-- Witness for C7 on a concrete 20-candle sequence. -/
theorem C7_insufficient_data_witness :
    (List.replicate 20 candle0).length = 20 ∧
    calculateIndicators (List.replicate 20 candle0) = none :=
  ⟨by simp, C7_insufficient_data _ (by simp)⟩

/-- Test of the regex `/[0-9]+[LS]\/USDT$/` (index.js line 82): unanchored at
the start, so a symbol matches exactly when its last seven characters are a
digit, then `L` or `S`, then `/USDT` (a longer digit run only extends the
same match). -/
def levSuffix : List Char → Bool
  | [d, l, '/', 'U', 'S', 'D', 'T'] => d.isDigit && (l == 'L' || l == 'S')
  | _ :: rest => levSuffix rest
  | [] => false

def isLeverageSymbol (s : String) : Bool := levSuffix s.data

/-- `getLeverageTokens` (index.js lines 77-91): `loadResult` is the outcome of
`kucoin.loadMarkets()`; on success the market keys are filtered by the regex
`/[0-9]+[LS]\/USDT$/`; the `catch` at lines 87-90 logs the error and returns
the empty list. -/
def getLeverageTokens (loadResult : Except String (List String)) : List String :=
  match loadResult with
  | .ok marketKeys => marketKeys.filter isLeverageSymbol
  | .error _ => []

/-- Observable outcome of one run of the monitoring cycle. -/
structure CycleResult where
  exited : Bool
  analyzed : List String
  completedCycle : Bool
  rescheduled : Bool
deriving DecidableEq

/-- `monitorTokens` (index.js lines 330-372): when inactive it returns before
the `try` (no reschedule); with an empty symbol list it logs a warning and
returns, the `finally` still rescheduling; otherwise it analyzes the symbols
and counts the cycle.  No path calls `process.exit`. -/
def monitorTokens (active : Bool) (loadResult : Except String (List String)) :
    CycleResult :=
  if !active then ⟨false, [], false, false⟩
  else
    let symbols := getLeverageTokens loadResult
    if symbols.isEmpty then ⟨false, [], false, true⟩
    else ⟨false, symbols, true, true⟩

/-- A market entry as returned by ccxt `loadMarkets`, with the fields the
variant filter reads (`src/unnamed/part_001` line 359). -/
structure Market where
  symbol : String
  active : Bool
  leveraged : Bool
  quote : String
deriving DecidableEq

def filterLeveraged (ms : List Market) : List String :=
  (ms.filter (fun m => m.active && m.leveraged && m.quote == "USDT")).map
    Market.symbol

/-- `loadMarketsWithRetry` (`src/unnamed/part_001` lines 354-366): three
attempts with growing backoff; the error of the third failed attempt is
rethrown to the caller. -/
def loadMarketsWithRetry (attempts : ℕ → Except String (List Market)) :
    Except String (List String) :=
  match attempts 0 with
  | .ok ms => .ok (filterLeveraged ms)
  | .error _ =>
    match attempts 1 with
    | .ok ms => .ok (filterLeveraged ms)
    | .error _ =>
      match attempts 2 with
      | .ok ms => .ok (filterLeveraged ms)
      | .error e => .error e

/-- `monitorCycle` (`src/unnamed/part_001` lines 448-467): a market-load error
is caught by the CRITICAL handler and the `finally` clause reschedules the
next cycle when the service is active; no path calls `process.exit`. -/
def monitorCycle (active : Bool) (loadResult : Except String (List String)) :
    CycleResult :=
  match loadResult with
  | .error _ => ⟨false, [], false, active⟩
  | .ok symbols => ⟨false, if active then symbols else [], true, active⟩

/-- C9 counterexample: at a concrete load failure the claim's "the process
terminates" is false — `getLeverageTokens` swallows the error into an empty
universe and the active loop reschedules itself (and the part_001 variant's
cycle likewise catches and reschedules). -/
theorem C9_counterexample :
    getLeverageTokens (.error "ENETUNREACH") = [] ∧
    (monitorTokens true (.error "ENETUNREACH")).exited = false ∧
    (monitorTokens true (.error "ENETUNREACH")).rescheduled = true ∧
    (monitorCycle true (.error "ENETUNREACH")).exited = false :=
  ⟨rfl, rfl, rfl, rfl⟩

/-- C9 (amended): when loading the symbol universe fails, index.js's
`getLeverageTokens` catches the error on the very first attempt (it has no
retry budget) and returns an empty universe; the active monitoring loop then
analyzes nothing, does not count the cycle, and reschedules — the process
does not terminate.  The part_001 variant's `loadMarketsWithRetry` does spend
a 3-attempt retry budget and rethrows the final error, but its caller
`monitorCycle` catches it and likewise reschedules instead of exiting. -/
theorem C9_load_failure_continues (e : String)
    (attempts : ℕ → Except String (List Market)) (e0 e1 e2 : String)
    (h0 : attempts 0 = .error e0) (h1 : attempts 1 = .error e1)
    (h2 : attempts 2 = .error e2) :
    getLeverageTokens (.error e) = [] ∧
    monitorTokens true (.error e) = ⟨false, [], false, true⟩ ∧
    loadMarketsWithRetry attempts = .error e2 ∧
    monitorCycle true (.error e2) = ⟨false, [], false, true⟩ := by
  refine ⟨rfl, rfl, ?_, rfl⟩
  simp [loadMarketsWithRetry, h0, h1, h2]

/-- Witness for the amended C9 at a concrete all-attempts-fail oracle. -/
theorem C9_load_failure_continues_witness :
    getLeverageTokens (.error "boom") = [] ∧
    monitorTokens true (.error "boom") = ⟨false, [], false, true⟩ ∧
    loadMarketsWithRetry (fun _ => .error "boom") = .error "boom" ∧
    monitorCycle true (.error "boom") = ⟨false, [], false, true⟩ :=
  C9_load_failure_continues "boom" (fun _ => .error "boom") "boom" "boom" "boom"
    rfl rfl rfl

end CriptAlerts
